import Mathlib

set_option maxRecDepth 40000

/-!
Verification of the extractive-summarization and multi-source answer-compilation
engine of the Offline-AI repository.

Text is modelled as `List Char`.  Python string operations are embedded as
executable Lean functions on `List Char`:
* `str.strip()` / `str.lower()` become `py_strip` / `py_lower` (ASCII model of
  Python whitespace and case folding);
* `re.split(r'[.!?]+', t)` becomes `re_split_delims` (split on maximal runs of
  the delimiter characters, delimiters consumed);
* the substring test `a in b` becomes `List.IsInfix` on character lists;
* Python's stable `list.sort(key=lambda x: x[1], reverse=True)` becomes the
  stable insertion sort `sort_by_score_desc` (any two stable sorts by the same
  key agree, so this is extensionally the sort the source performs).

Network transports (HTTP requests, DOM extraction) are external collaborators:
they enter the embedding as explicit arguments (the texts a page yielded, or a
`Transport` outcome that is either a delivered response or a raised failure).
All in-repository logic downstream of those boundaries is transcribed from the
source files.
-/

/-! ## Basic text model -/

abbrev Text := List Char

/-- ASCII model of Python whitespace (the characters `str.strip()` removes and
`\s` matches): space, tab, newline, carriage return, vertical tab, form feed. -/
def py_space (c : Char) : Bool :=
  c = ' ' || c = '\t' || c = '\n' || c = '\r' || c = '\x0b' || c = '\x0c'

/-- Python `str.strip()`: drop whitespace from both ends. -/
def py_strip (s : Text) : Text :=
  ((s.dropWhile py_space).reverse.dropWhile py_space).reverse

/-- Python `str.lower()` (ASCII model). -/
def py_lower (s : Text) : Text := s.map Char.toLower

/-- Decimal rendering of a natural number, as Python `str(n)` / f-string
interpolation of a nonnegative `len(...)` produces it. -/
def nat_text (n : Nat) : Text := (Nat.repr n).toList

/-- Python `"c" * n`: a run of `n` copies of one character. -/
def char_run (c : Char) (n : Nat) : Text := List.replicate n c

/-! ## Sentence segmentation

`conversational_ai.py` `split_into_sentences` (lines 403-418) and
`simple_ai_chat.py` `split_sentences` (lines 184-196) both split on
`re.split(r'[.!?]+', text)`, strip each piece, and keep pieces above a length
threshold (10 and 15 respectively). -/

/-- The sentence delimiters `.`, `!`, `?`. -/
def sent_delim (c : Char) : Bool := c = '.' || c = '!' || c = '?'

/-- `re.split(r'[.!?]+', text)`: pieces between maximal delimiter runs.  A
delimiter starts a new piece only when the following character is not itself a
delimiter, so runs are consumed as one separator; like `re.split`, leading and
trailing runs produce empty pieces at the ends, and the empty input yields one
empty piece. -/
def re_split_delims : Text → List Text
  | [] => [[]]
  | c :: cs =>
    let r := re_split_delims cs
    if sent_delim c then
      match cs with
      | [] => [] :: r
      | c2 :: _ => if sent_delim c2 then r else [] :: r
    else
      match r with
      | [] => [[c]]
      | p :: ps => (c :: p) :: ps

/-- `conversational_ai.split_into_sentences`: split, strip, keep pieces with
more than 10 characters. -/
def split_into_sentences (text : Text) : List Text :=
  ((re_split_delims text).map py_strip).filter (fun s => decide (10 < s.length))

/-- `simple_ai_chat.split_sentences`: split, strip, keep pieces with more than
15 characters. -/
def split_sentences (text : Text) : List Text :=
  ((re_split_delims text).map py_strip).filter (fun s => decide (15 < s.length))

/-! ## Sentence scoring

`conversational_ai.extract_key_sentences` (lines 426-453) scores each sentence
by position, length, keywords and numeric content; `simple_ai_chat.
select_key_sentences` (lines 206-233) does the same with different bands and a
shorter keyword list.  The in-loop `score += ...` accumulation is embedded as a
sum of the four independent contributions. -/

/-- Keyword list of `conversational_ai.py` line 444, in source order. -/
def keywords_conv : List Text :=
  ["important", "key", "main", "primary", "significant", "crucial",
   "essential", "major", "conclusion", "result", "therefore", "however",
   "because"].map String.toList

/-- Keyword list of `simple_ai_chat.py` lines 220-223, in source order. -/
def keywords_simple : List Text :=
  ["important", "key", "main", "primary", "essential", "crucial",
   "therefore", "however", "because", "result", "conclusion"].map String.toList

/-- Position contribution (`conversational_ai.py` lines 430-435): `+3` for the
first sentence, `+2` for the last, else `+1` for `i < len(sentences) * 0.3`.
The float comparison `i < n * 0.3` is embedded as `10 * i < 3 * n`: for an
integer `i` the two tests agree, because the rounded double `n * 0.3` differs
from the rational `3n/10` by far less than the distance to the nearest other
integer for every feasible `n`. -/
def position_score (i n : Nat) : Nat :=
  if i = 0 then 3
  else if i = n - 1 then 2
  else if 10 * i < 3 * n then 1
  else 0

/-- Length contribution (`conversational_ai.py` lines 437-441):
`score += 2` when `50 < len(sentence) < 200`, else `+1` when
`20 < len(sentence) < 300`. -/
def length_score (s : Text) : Nat :=
  if 50 < s.length ∧ s.length < 200 then 2
  else if 20 < s.length ∧ s.length < 300 then 1
  else 0

/-- Keyword contribution (`conversational_ai.py` lines 443-447): `+1` for each
keyword with `keyword.lower() in sentence.lower()`. -/
def keyword_score (s : Text) : Nat :=
  keywords_conv.countP (fun kw => decide (py_lower kw <:+: py_lower s))

/-- Numeric contribution (`conversational_ai.py` lines 449-451): `+1` when
`re.search(r'\d+', sentence)` finds a digit. -/
def numeric_score (s : Text) : Nat :=
  if s.any Char.isDigit then 1 else 0

/-- Total score of sentence `s` at index `i` in a sequence of length `n`
(`conversational_ai.extract_key_sentences` scoring loop). -/
def score_sentence (i n : Nat) (s : Text) : Nat :=
  position_score i n + length_score s + keyword_score s + numeric_score s

/-- Position contribution of `simple_ai_chat.select_key_sentences`
(lines 209-213): first `+3`, last `+2`, nothing else. -/
def position_score_simple (i n : Nat) : Nat :=
  if i = 0 then 3
  else if i = n - 1 then 2
  else 0

/-- Length contribution of `simple_ai_chat.select_key_sentences`
(lines 215-217): `+2` when `30 <= len(sentence) <= 150`, no other band. -/
def length_score_simple (s : Text) : Nat :=
  if 30 ≤ s.length ∧ s.length ≤ 150 then 2 else 0

/-- Keyword contribution of `simple_ai_chat.select_key_sentences`
(lines 219-227). -/
def keyword_score_simple (s : Text) : Nat :=
  keywords_simple.countP (fun kw => decide (py_lower kw <:+: py_lower s))

/-- Total score in the `simple_ai_chat` variant (lines 206-233). -/
def score_sentence_simple (i n : Nat) (s : Text) : Nat :=
  position_score_simple i n + length_score_simple s + keyword_score_simple s +
    numeric_score s

/-! ## Ranking

Both variants run `scored_sentences.sort(key=lambda x: x[1], reverse=True)`:
a stable sort, descending by score, ties keeping original order.  The stable
insertion sort below produces exactly that order: an element is inserted after
every already-placed element of greater-or-equal score, and earlier elements
are inserted last, so among equal scores the original order survives. -/

/-- Insert one `(sentence, score)` pair into a descending-sorted list, before
the first strictly smaller score. -/
def insert_by_score (x : Text × Nat) : List (Text × Nat) → List (Text × Nat)
  | [] => [x]
  | y :: ys => if x.2 ≥ y.2 then x :: y :: ys else y :: insert_by_score x ys

/-- Stable descending sort by score: the embedding of
`list.sort(key=lambda x: x[1], reverse=True)`. -/
def sort_by_score_desc : List (Text × Nat) → List (Text × Nat)
  | [] => []
  | x :: xs => insert_by_score x (sort_by_score_desc xs)

/-- `keep_count` of `conversational_ai.extract_key_sentences` (lines 459-465):
`2` when `n <= 5`, `3` when `n <= 10`, else `max(3, n // 3)`. -/
def keep_count (n : Nat) : Nat :=
  if n ≤ 5 then 2
  else if n ≤ 10 then 3
  else max 3 (n / 3)

/-- `conversational_ai.extract_key_sentences` (lines 420-469): score each
sentence, sort descending by score (stable), take the top `keep_count`, and
return the sentences in that sorted order (the source performs no re-sort by
position before returning). -/
def extract_key_sentences (sentences : List Text) : List Text :=
  let n := sentences.length
  let scored := sentences.enum.map (fun p => (p.2, score_sentence p.1 n p.2))
  let sorted := sort_by_score_desc scored
  (sorted.take (keep_count n)).map Prod.fst

/-- `simple_ai_chat.select_key_sentences` (lines 198-241): lists of at most 3
sentences are returned whole; otherwise score, stable-sort descending, and take
`min(3, max(2, n // 3))`, again in sorted order. -/
def select_key_sentences (sentences : List Text) : List Text :=
  if sentences.length ≤ 3 then sentences
  else
    let n := sentences.length
    let scored :=
      sentences.enum.map (fun p => (p.2, score_sentence_simple p.1 n p.2))
    let sorted := sort_by_score_desc scored
    (sorted.take (min 3 (max 2 (n / 3)))).map Prod.fst

/-! ## Summary rendering (`conversational_ai.create_summary`, lines 471-501) -/

/-- Python `sentence.endswith(('.', '!', '?'))`. -/
def ends_with_punct (s : Text) : Bool :=
  match s.getLast? with
  | some c => sent_delim c
  | none => false

/-- Formatting of one kept sentence (lines 485-495): strip, enforce a trailing
period, and prepend a bullet when more than one sentence is kept (`k` is the
number of kept sentences). -/
def format_key_sentence (k : Nat) (s : Text) : Text :=
  let s1 := py_strip s
  let s2 := if ends_with_punct s1 then s1 else s1 ++ ['.']
  if 1 < k then "• ".toList ++ s2 else s2

/-- The `summary_parts` list before the optional footnote (lines 478-495): a
`**Key Points:**` header when more than one sentence, then the formatted
sentences. -/
def summary_parts (key_sentences : List Text) : List Text :=
  (if 1 < key_sentences.length then ["**Key Points:**".toList] else []) ++
    key_sentences.map (format_key_sentence key_sentences.length)

/-- The compression footnote (line 499): it quotes `len(original_text)` and
`len(' '.join(summary_parts))`, the parts joined by a single space. -/
def compression_footnote (original : Text) (parts : List Text) : Text :=
  "\n*This summary condensed ".toList ++ nat_text original.length ++
    " characters into ".toList ++
    nat_text (List.intercalate [' '] parts).length ++ " characters.*".toList

/-- `conversational_ai.create_summary` (lines 471-501): guidance message for an
empty selection; otherwise the parts, with the compression footnote appended
only when `len(original_text) > 1000`, joined by newlines. -/
def create_summary (key_sentences : List Text) (original_text : Text) : Text :=
  if key_sentences = [] then
    "Unable to generate summary - please provide more substantial text.".toList
  else
    let parts := summary_parts key_sentences
    let parts2 :=
      if 1000 < original_text.length then
        parts ++ [compression_footnote original_text parts]
      else parts
    List.intercalate ['\n'] parts2

/-- `conversational_ai.summarize_text` (lines 379-401): strip; texts shorter
than 200 characters are returned behind an "already quite brief" label; at most
3 segmented sentences are returned behind an "already concise" label; otherwise
extract and render key sentences. -/
def summarize_text (text : Text) : Text :=
  let t := py_strip text
  if t.length < 200 then
    "This text is already quite brief. Here it is:\n\n".toList ++ t
  else
    let sentences := split_into_sentences t
    if sentences.length ≤ 3 then
      "This text is already concise:\n\n".toList ++ t
    else
      create_summary (extract_key_sentences sentences) t

/-- `simple_ai_chat.create_summary` (lines 156-182): strip; texts shorter than
100 characters are returned behind an "already brief" label; at most 2
segmented sentences are returned behind an "already concise" label; otherwise
select key sentences and render a numbered `**Key Points:**` list (a single
kept sentence is returned bare). -/
def create_summary_simple (text : Text) : Text :=
  let t := py_strip text
  if t.length < 100 then
    "This text is already brief:\n\n".toList ++ t
  else
    let sentences := split_sentences t
    if sentences.length ≤ 2 then
      "This text is already concise:\n\n".toList ++ t
    else
      let ks := select_key_sentences sentences
      if ks.length = 1 then ks.headD []
      else
        py_strip ("**Key Points:**\n".toList ++
          (ks.enum.map (fun p =>
            nat_text (p.1 + 1) ++ ". ".toList ++ py_strip p.2 ++ ['\n'])).flatten)

/-! ## Web snippet extraction (`simple_ai_chat.extract_search_snippets`,
lines 421-458)

The DOM query is the external boundary: the function receives, per CSS
selector, the ordered raw texts of the matched elements.  The source takes the
first 5 elements per selector, strips each text, keeps texts of more than 30
and fewer than 300 characters that avoid a blocklist, deduplicates by
case-insensitive containment in an already-kept snippet, and renders at most 3
of them. -/

/-- Blocklist of `simple_ai_chat.py` line 441, in source order. -/
def snippet_blocklist : List Text :=
  ["sign in", "cookies", "privacy", "javascript", "advertisement"].map
    String.toList

/-- The per-snippet filter of lines 439-441: non-empty, more than 30 and fewer
than 300 characters, and no blocklisted phrase in the lowered text. -/
def good_snippet (t : Text) : Bool :=
  !t.isEmpty && decide (30 < t.length) && decide (t.length < 300) &&
    !(snippet_blocklist.any (fun b => decide (b <:+: py_lower t)))

/-- The collection loop of lines 435-442: first 5 elements per selector,
stripped and filtered, in selector order. -/
def collect_snippets (per_selector : List (List Text)) : List Text :=
  (per_selector.map (fun els => ((els.take 5).map py_strip).filter
    good_snippet)).flatten

/-- The deduplication loop of lines 446-450: a snippet is dropped exactly when
its lowered text is contained in the lowered text of an already-kept one. -/
def dedup_snippets (snips : List Text) : List Text :=
  snips.foldl (fun uniq s =>
    if uniq.any (fun e => decide (py_lower s <:+: py_lower e)) then uniq
    else uniq ++ [s]) []

/-- The snippets that make it into the rendered result: the deduplicated list,
capped at 3 (`unique_snippets[:3]`, line 454). -/
def kept_snippets (per_selector : List (List Text)) : List Text :=
  (dedup_snippets (collect_snippets per_selector)).take 3

/-- `simple_ai_chat.extract_search_snippets` (lines 421-458): `None` when
nothing qualifies, otherwise the numbered `**Key Information Found:**`
rendering of the kept snippets. -/
def extract_search_snippets (per_selector : List (List Text)) : Option Text :=
  let snippets := collect_snippets per_selector
  if snippets ≠ [] then
    let uniq := dedup_snippets snippets
    if uniq ≠ [] then
      some (py_strip ("**Key Information Found:**\n".toList ++
        ((uniq.take 3).enum.map (fun p =>
          nat_text (p.1 + 1) ++ ". ".toList ++ p.2 ++ ['\n'])).flatten))
    else none
  else none

/-! ## Answer compilation (`intelligent_limbor.py`)

`SourceData` is the tagged union of values a provider can deliver: a mapping
(Python dict, embedded as an association list in insertion order), a list of
search results (dict items or plain strings), or plain text.  Python
`str(value)` on a dict or list (its repr) is runtime behavior outside the
engine; it enters as the abstract argument `py_str`.  `str` of a string is the
string itself, which `str_of` fixes. -/

inductive WebItem where
  | dict_item (fields : List (Text × Text))
  | str_item (s : Text)

inductive SourceData where
  | dict (fields : List (Text × Text))
  | list (items : List WebItem)
  | txt (s : Text)

/-- Python `str(value)`: the identity on strings, the abstract repr `py_str`
on dicts and lists. -/
def str_of (py_str : SourceData → Text) (d : SourceData) : Text :=
  match d with
  | .txt s => s
  | d => py_str d

/-- Python `key.replace('_', ' ')`. -/
def replace_underscores (s : Text) : Text :=
  s.map (fun c => if c = '_' then ' ' else c)

/-- Helper for `str.title()`: the flag records whether the previous character
was alphabetic. -/
def py_title_aux : Bool → Text → Text
  | _, [] => []
  | prev, c :: cs =>
    (if c.isAlpha then (if prev then c.toLower else c.toUpper) else c) ::
      py_title_aux c.isAlpha cs

/-- Python `str.title()` (ASCII model): uppercase each letter that starts an
alphabetic run, lowercase the rest of the run. -/
def py_title (s : Text) : Text := py_title_aux false s

/-- Main-source rendering for a structured result
(`intelligent_limbor.py` lines 239-247): the `definition` field first when
present, then one bullet per remaining field with a titled key. -/
def render_dict_main (data : List (Text × Text)) : Text :=
  (match data.lookup "definition".toList with
   | some v => v ++ "\n\n".toList
   | none => []) ++
  ((data.filter (fun kv => kv.1 != "definition".toList)).map (fun kv =>
    "• ".toList ++ py_title (replace_underscores kv.1) ++ ": ".toList ++
      kv.2 ++ ['\n'])).flatten

/-- Rendering of one item of a list-valued additional source (lines 269-274). -/
def render_web_item (item : WebItem) : Text :=
  match item with
  | .dict_item fields =>
    "   • ".toList ++ (fields.lookup "title".toList).getD "No title".toList ++
      ['\n'] ++ "     ".toList ++
      ((fields.lookup "snippet".toList).getD "No description".toList).take 100
      ++ "...\n".toList
  | .str_item s => "   • ".toList ++ s.take 100 ++ "...\n".toList

/-- Rendering of one additional source (lines 258-278), numbered from 1. -/
def render_additional (idx : Nat) (name : Text) (data : SourceData) : Text :=
  nat_text idx ++ ". ".toList ++ name ++ ":\n".toList ++
  (match data with
   | .dict fields =>
     (match fields.lookup "title".toList with
      | some t => "   Title: ".toList ++ t ++ ['\n']
      | none => []) ++
     (match fields.lookup "content".toList with
      | some t => "   Content: ".toList ++ t ++ ['\n']
      | none => []) ++
     (match fields.lookup "url".toList with
      | some t => "   Source: ".toList ++ t ++ ['\n']
      | none => [])
   | .list items => ((items.take 3).map render_web_item).flatten
   | .txt s => "   ".toList ++ s.take 200 ++ "...\n".toList) ++
  ['\n']

/-- `intelligent_limbor.compile_comprehensive_response` (lines 227-284).
`now` stands for the wall-clock string `datetime.now().strftime(...)`. -/
def compile_comprehensive_response (py_str : SourceData → Text) (query : Text)
    (sources : List (Text × SourceData)) (now : Text) : Text :=
  match sources with
  | [] =>
    "❌ I couldn\x27t find comprehensive information about \x27".toList ++
      query ++
      "\x27. Try rephrasing your question or being more specific.".toList
  | main :: _ =>
    "\n🤖 Limbor\x27s Research Report: ".toList ++ query ++ ['\n'] ++
    char_run '=' 60 ++ "\n\n".toList ++
    "📋 SUMMARY:\n".toList ++
    (match main.2 with
     | .dict data => render_dict_main data
     | d => str_of py_str d ++ ['\n']) ++
    ['\n'] ++ char_run '─' 60 ++ "\n\n".toList ++
    (if 1 < sources.length then
      "📚 ADDITIONAL SOURCES:\n\n".toList ++
        ((sources.drop 1).enum.map (fun p =>
          render_additional (p.1 + 1) p.2.1 p.2.2)).flatten
     else []) ++
    char_run '─' 60 ++ ['\n'] ++
    "🕒 Research completed at ".toList ++ now ++ ['\n'] ++
    "📊 Sources consulted: ".toList ++ nat_text sources.length ++ ['\n']

/-- `intelligent_limbor.get_built_in_knowledge` (lines 48-88): the static
knowledge table, keyed by case-insensitive containment tests on the query. -/
def get_built_in_knowledge (query : Text) : Option (List (Text × Text)) :=
  let q := py_lower query
  if "npu".toList <:+: q then some [
    ("definition".toList, ("Neural Processing Unit (NPU) is a specialized " ++
      "microprocessor designed to accelerate artificial intelligence and " ++
      "machine learning computations.").toList),
    ("details".toList, ("NPUs are optimized for neural network operations " ++
      "like matrix multiplications, convolutions, and other AI workloads. " ++
      "They\x27re found in modern smartphones (Apple A17 Pro, Qualcomm " ++
      "Snapdragon), laptops (Apple M-series, Intel Core Ultra), and " ++
      "dedicated AI chips.").toList),
    ("applications".toList, ("Used for on-device AI tasks like image " ++
      "recognition, natural language processing, voice assistants, camera " ++
      "enhancements, and real-time translation.").toList),
    ("advantages".toList, ("More energy-efficient than CPUs/GPUs for AI " ++
      "tasks, enables privacy-preserving on-device AI, reduces latency by " ++
      "avoiding cloud processing.").toList)]
  else if "artificial intelligence".toList <:+: q ∨ "ai".toList <:+: q then
    some [
    ("definition".toList, ("Artificial Intelligence (AI) is the simulation " ++
      "of human intelligence in machines programmed to think and learn " ++
      "like humans.").toList),
    ("types".toList, ("Narrow AI (specific tasks like Siri), General AI " ++
      "(human-level intelligence, not yet achieved), Super AI (beyond " ++
      "human intelligence, theoretical)").toList),
    ("applications".toList, ("Virtual assistants, recommendation systems, " ++
      "autonomous vehicles, medical diagnosis, fraud detection, language " ++
      "translation, image recognition").toList),
    ("technologies".toList, ("Machine Learning, Deep Learning, Neural " ++
      "Networks, Natural Language Processing, Computer Vision").toList),
    ("current_state".toList, ("We\x27re in the era of Narrow AI with rapid " ++
      "advances in Large Language Models (ChatGPT, GPT-4) and multimodal " ++
      "AI systems.").toList)]
  else if "python".toList <:+: q ∧
      ("programming".toList <:+: q ∨ "language".toList <:+: q) then some [
    ("definition".toList, ("Python is a high-level, interpreted programming " ++
      "language known for its simplicity and readability.").toList),
    ("features".toList, ("Easy syntax, extensive libraries, cross-platform, " ++
      "object-oriented and functional programming support").toList),
    ("uses".toList, ("Web development (Django, Flask), Data Science " ++
      "(Pandas, NumPy), AI/ML (TensorFlow, PyTorch), Automation, " ++
      "Scientific computing").toList),
    ("advantages".toList, ("Beginner-friendly, large community, extensive " ++
      "documentation, rapid development").toList),
    ("learning_path".toList, ("Start with basics → Learn data structures → " ++
      "Practice projects → Explore libraries → Build real applications"
      ).toList)]
  else if "machine learning".toList <:+: q ∨ "ml".toList <:+: q then some [
    ("definition".toList, ("Machine Learning is a subset of AI that enables " ++
      "computers to learn and improve from data without explicit " ++
      "programming.").toList),
    ("types".toList, ("Supervised Learning (labeled data), Unsupervised " ++
      "Learning (pattern finding), Reinforcement Learning (reward-based)"
      ).toList),
    ("algorithms".toList, ("Linear Regression, Decision Trees, Random " ++
      "Forest, Neural Networks, Support Vector Machines, K-means " ++
      "Clustering").toList),
    ("applications".toList, ("Recommendation systems, Image recognition, " ++
      "Natural language processing, Predictive analytics, Autonomous " ++
      "systems").toList),
    ("process".toList, ("Data Collection → Data Preprocessing → Model " ++
      "Selection → Training → Evaluation → Deployment → Monitoring"
      ).toList)]
  else none

/-- `intelligent_limbor.get_comprehensive_answer` (lines 23-46): consult the
built-in table, then Wikipedia, then the web searches, collect the non-empty
results in that order, and compile.  The Wikipedia and web results come from
the network and enter as arguments (`search_wikipedia_detailed` returns an
optional title/content/url mapping; `search_multiple_sources` returns a list
of named list-valued results). -/
def get_comprehensive_answer (py_str : SourceData → Text) (query : Text)
    (wiki : Option (List (Text × Text))) (web : List (Text × SourceData))
    (now : Text) : Text :=
  let sources :=
    (match get_built_in_knowledge query with
     | some d => [("Built-in Knowledge".toList, SourceData.dict d)]
     | none => []) ++
    (match wiki with
     | some d => [("Wikipedia".toList, SourceData.dict d)]
     | none => []) ++
    web
  compile_comprehensive_response py_str query sources now

/-! ## Provider boundaries (`simple_ai_chat.search_wikipedia`,
`smart_search_test.search_duckduckgo`)

A `Transport` value is the outcome of one network request as the Python code
observes it: `ok` carries the delivered (already JSON-parsed or DOM-extracted)
response, `fail` stands for any raised failure - timeout, transport error, or
malformed response body.  Each provider is wrapped in `try/except ... return
None` in the source, so a `fail` on any consulted request must surface as
`none`, never as an exception. -/

inductive Transport (α : Type) where
  | fail : Transport α
  | ok : α → Transport α

/-- A parsed Wikipedia summary response: HTTP status plus the optional
`extract` field of the JSON body. -/
structure WikiSummary where
  status : Nat
  extract : Option Text

/-- The shared summary-endpoint logic of `simple_ai_chat.search_wikipedia`
(lines 472-479 and 501-507): on status 200 with a non-empty `extract`, return
it truncated to 397 characters plus an ellipsis when longer than 400. -/
def wiki_extract_result (r : WikiSummary) : Option Text :=
  if r.status = 200 then
    match r.extract with
    | some e =>
      if e ≠ [] then
        some (if 400 < e.length then e.take 397 ++ "...".toList else e)
      else none
    | none => none
  else none

/-- `simple_ai_chat.search_wikipedia` (lines 460-513).  `r1` is the direct
summary request, `r2` the search-API request (`none` inside `ok` models a
response missing the `query`/`search` keys, the list holds the found page
titles), `r3` the follow-up summary request for the first title.  The whole
body sits in one `try/except` returning `None`. -/
def search_wikipedia (r1 : Transport WikiSummary)
    (r2 : Transport (Option (List Text))) (r3 : Transport WikiSummary) :
    Option Text :=
  match r1 with
  | .fail => none
  | .ok s1 =>
    match wiki_extract_result s1 with
    | some t => some t
    | none =>
      match r2 with
      | .fail => none
      | .ok none => none
      | .ok (some []) => none
      | .ok (some (_ :: _)) =>
        match r3 with
        | .fail => none
        | .ok s3 => wiki_extract_result s3

/-- Blocklist of `smart_search_test.py` line 114, in source order. -/
def ddg_blocklist : List Text :=
  ["cookies", "privacy", "javascript", "sign in"].map String.toList

/-- `smart_search_test.search_duckduckgo` (lines 95-121): on a delivered page,
scan the first 3 snippet-class texts, return the first stripped text of more
than 30 and fewer than 400 characters that avoids the blocklist (truncated to
300 plus ellipsis when longer than 300); any raised failure returns `None`. -/
def search_duckduckgo (r : Transport (List Text)) : Option Text :=
  match r with
  | .fail => none
  | .ok texts =>
    ((texts.take 3).map py_strip).findSome? (fun t =>
      if t ≠ [] ∧ 30 < t.length ∧ t.length < 400 ∧
          ¬ (ddg_blocklist.any (fun b => decide (b <:+: py_lower t)) = true)
        then
        some (if 300 < t.length then t.take 300 ++ "...".toList else t)
      else none)

/-! ## Math handling (`conversational_ai.handle_math_request`, lines 859-890)

`re.findall(r'[\d+\-*/().\s]+', request)` returns the maximal runs of
characters of the class; joining them is exactly filtering the request to the
class.  The result is stripped and gated by
`re.match(r'^[\d+\-*/().\s]+$', expr)` before `eval`.  The dynamic evaluator
itself is Python runtime behavior and enters as the abstract argument
`evaluator`; a raised evaluation failure is its `error` outcome, absorbed by
the inner `try/except: pass` into the help message. -/

/-- The characters of the regex class `[\d+\-*/().\s]` (ASCII model of `\d`
and `\s`). -/
def math_class_chars : Text :=
  ['0', '1', '2', '3', '4', '5', '6', '7', '8', '9', '+', '-', '*', '/',
   '(', ')', '.', ' ', '\t', '\n', '\r', '\x0b', '\x0c']

/-- Membership in the regex class `[\d+\-*/().\s]`. -/
def math_char (c : Char) : Bool := decide (c ∈ math_class_chars)

/-- The help message of lines 879-887. -/
def math_help : Text :=
  ("I can help with math! Try asking me things like:\n\n" ++
   "• \"Calculate 15 + 25 * 3\"\n" ++
   "• \"What\x27s 25% of 200?\"\n" ++
   "• \"Convert 100 fahrenheit to celsius\"\n" ++
   "• \"Explain how to solve quadratic equations\"\n" ++
   "• \"What\x27s the area of a circle with radius 5?\"\n\n" ++
   "For complex math problems, I can also explain the steps and concepts " ++
   "involved. What would you like to calculate or learn about?").toList

/-- The expression `handle_math_request` would pass to the evaluator: the
class characters of the request, stripped, provided the anchored class
pattern accepts the result (lines 866-872).  `none` means the evaluator is
never invoked. -/
def math_expr (request : Text) : Option Text :=
  let expr := py_strip (request.filter math_char)
  if expr ≠ [] ∧ expr.all math_char then some expr else none

/-- `conversational_ai.handle_math_request` (lines 859-890): evaluate the
gated expression and render the answer; a missing expression or a failed
evaluation yields the help message. -/
def handle_math_request (evaluator : Text → Except Unit Text)
    (request : Text) : Text :=
  match math_expr request with
  | some expr =>
    match evaluator expr with
    | .ok r =>
      "The answer is: **".toList ++ r ++ "**\n\nCalculation: ".toList ++
        expr ++ " = ".toList ++ r
    | .error _ => math_help
  | none => math_help

/-! ## Helper lemmas -/

theorem append_ne_nil_left {a b : Text} (h : a ≠ []) : a ++ b ≠ [] := by
  cases a with
  | nil => exact absurd rfl h
  | cons c cs => simp

theorem mem_insert_by_score {x a : Text × Nat} :
    ∀ {l : List (Text × Nat)}, x ∈ insert_by_score a l → x = a ∨ x ∈ l := by
  intro l
  induction l with
  | nil =>
    intro h
    simp [insert_by_score] at h
    exact Or.inl h
  | cons y ys ih =>
    intro h
    by_cases hc : a.2 ≥ y.2
    · simp only [insert_by_score, if_pos hc] at h
      simpa using h
    · simp only [insert_by_score, if_neg hc] at h
      rcases List.mem_cons.mp h with h1 | h1
      · right
        simp [h1]
      · rcases ih h1 with h2 | h2
        · left
          exact h2
        · right
          simp [h2]

theorem mem_sort_by_score_desc {x : Text × Nat} :
    ∀ {l : List (Text × Nat)}, x ∈ sort_by_score_desc l → x ∈ l := by
  intro l
  induction l with
  | nil =>
    intro h
    simp [sort_by_score_desc] at h
  | cons y ys ih =>
    intro h
    rcases mem_insert_by_score (by simpa [sort_by_score_desc] using h) with h1 | h1
    · simp [h1]
    · simp [ih h1]

theorem length_insert_by_score (a : Text × Nat) :
    ∀ l : List (Text × Nat), (insert_by_score a l).length = l.length + 1 := by
  intro l
  induction l with
  | nil => simp [insert_by_score]
  | cons y ys ih =>
    by_cases hc : a.2 ≥ y.2 <;> simp [insert_by_score, hc, ih]

theorem length_sort_by_score_desc :
    ∀ l : List (Text × Nat), (sort_by_score_desc l).length = l.length := by
  intro l
  induction l with
  | nil => rfl
  | cons y ys ih => simp [sort_by_score_desc, length_insert_by_score, ih]

theorem take_map_len_le (l : List (Text × Nat)) (k : Nat) :
    ((l.take k).map Prod.fst).length ≤ k := by
  simp only [List.length_map, List.length_take]
  omega

theorem isInfix_append_right {a b c : Text} (h : a <:+: b) : a <:+: b ++ c := by
  rcases h with ⟨u, v, rfl⟩
  exact ⟨u, v ++ c, by simp⟩

theorem keyword_score_mono (s t : Text) :
    keyword_score s ≤ keyword_score (s ++ t) := by
  unfold keyword_score
  apply List.countP_mono_left
  intro kw _ h
  simp only [decide_eq_true_eq, py_lower, List.map_append] at h ⊢
  exact isInfix_append_right h

theorem numeric_score_mono (s t : Text) :
    numeric_score s ≤ numeric_score (s ++ t) := by
  unfold numeric_score
  by_cases h : s.any Char.isDigit
  · simp [List.any_append, h]
  · simp [h]

theorem math_char_not_alpha (c : Char) (h : math_char c = true) :
    c.isAlpha = false := by
  have hm : c ∈ math_class_chars := of_decide_eq_true h
  have hall : ∀ x ∈ math_class_chars, x.isAlpha = false := by decide
  exact hall c hm

/-! ## Claim C5: the length bonus bands -/

/-- C5 counterexample: the claim asserts the `+2` band is `50 ≤ len < 200`, so
that a 50-character sentence earns `+2`.  In `conversational_ai.py` line 438
the band is strict (`50 < len(sentence) < 200`): a 50-character sentence falls
into the second band and earns `+1`, and its full score at a neutral position
is 1, not 2. -/
theorem c5_counterexample :
    (List.replicate 50 'x').length = 50 ∧
    length_score (List.replicate 50 'x') = 1 ∧
    ¬ length_score (List.replicate 50 'x') = 2 ∧
    score_sentence 5 10 (List.replicate 50 'x') = 1 := by
  decide

/-- C5 (amended): the length contribution of `conversational_ai.py` is `+2`
exactly when `50 < len < 200` (so a 50-character sentence gets `+1`), else
`+1` when `20 < len < 300`, else `0`, and never exceeds `+2` (one bonus per
sentence); the `simple_ai_chat.py` variant instead gives `+2` exactly when
`30 ≤ len ≤ 150` and otherwise nothing. -/
theorem c5_length_band_characterization (s : Text) :
    (length_score s = 2 ↔ 50 < s.length ∧ s.length < 200) ∧
    (s.length = 50 → length_score s = 1) ∧
    length_score s ≤ 2 ∧
    (length_score_simple s = 2 ↔ 30 ≤ s.length ∧ s.length ≤ 150) ∧
    (length_score_simple s = 0 ∨ length_score_simple s = 2) := by
  unfold length_score length_score_simple
  split_ifs <;> simp_all <;> omega

/-- C5 witness: the amended theorem applied to the concrete 50-character
sentence. -/
theorem c5_witness : length_score (List.replicate 50 'x') = 1 :=
  (c5_length_band_characterization (List.replicate 50 'x')).2.1 (by decide)

/-! ## Claim C6: the keep-count bound -/

/-- C6 counterexample: `simple_ai_chat.select_key_sentences` (line 201)
returns any list of at most 3 sentences whole, so on 3 sentences it returns 3,
exceeding the claimed `keep_count = 2` for `n ≤ 5`. -/
theorem c6_counterexample :
    (select_key_sentences
      ["The first sentence is here".toList,
       "The second sentence is here".toList,
       "The third sentence is here".toList]).length = 3 ∧
    keep_count 3 = 2 ∧
    ¬ (select_key_sentences
      ["The first sentence is here".toList,
       "The second sentence is here".toList,
       "The third sentence is here".toList]).length ≤ keep_count 3 := by
  decide

/-- C6 (amended): `conversational_ai.extract_key_sentences` always returns at
most `keep_count n` sentences; `simple_ai_chat.select_key_sentences` obeys the
same bound once `n > 3`, but returns all `n` sentences (3 at `n = 3`,
exceeding the stated `keep_count = 2`) when `n ≤ 3`. -/
theorem c6_keep_count_bound (sentences : List Text) :
    (extract_key_sentences sentences).length ≤ keep_count sentences.length ∧
    (3 < sentences.length →
      (select_key_sentences sentences).length ≤ keep_count sentences.length) := by
  constructor
  · exact take_map_len_le _ _
  · intro h3
    unfold select_key_sentences
    rw [if_neg (by omega)]
    refine le_trans (take_map_len_le _ _) ?_
    unfold keep_count
    simp only [Nat.min_def, Nat.max_def]
    split_ifs <;> omega

/-- C6 witness: the amended bound applied to a concrete 4-sentence input of the
simplified variant. -/
theorem c6_witness :
    (select_key_sentences
      ["The first sentence is here".toList,
       "The second sentence is here".toList,
       "The third sentence is here".toList,
       "The fourth sentence is here".toList]).length ≤ keep_count 4 :=
  (c6_keep_count_bound _).2 (by decide)

/-! ## Claim C7: provider failures become `none` -/

/-- C7: every transport failure a provider encounters is absorbed into the
absent result.  For `simple_ai_chat.search_wikipedia`: a failed direct-summary
request yields `none`; when the direct summary produced nothing, a failed
search-API request yields `none`; when the search produced titles, a failed
follow-up summary request yields `none`.  For
`smart_search_test.search_duckduckgo`: a failed search-page request yields
`none`.  Both functions are total Lean functions, so no input makes them raise
to the caller. -/
theorem c7_provider_failures_absorbed :
    (∀ (r2 : Transport (Option (List Text))) (r3 : Transport WikiSummary),
      search_wikipedia Transport.fail r2 r3 = none) ∧
    (∀ (s1 : WikiSummary) (r3 : Transport WikiSummary),
      wiki_extract_result s1 = none →
      search_wikipedia (Transport.ok s1) Transport.fail r3 = none) ∧
    (∀ (s1 : WikiSummary) (t : Text) (ts : List Text),
      wiki_extract_result s1 = none →
      search_wikipedia (Transport.ok s1) (Transport.ok (some (t :: ts)))
        Transport.fail = none) ∧
    search_duckduckgo Transport.fail = none := by
  refine ⟨fun r2 r3 => rfl, fun s1 r3 h => ?_, fun s1 t ts h => ?_, rfl⟩ <;>
    simp [search_wikipedia, h]

/-- C7 witness: the failure-absorption theorem applied to a concrete 404
response and concrete failed transports. -/
theorem c7_witness :
    search_wikipedia (Transport.ok ⟨404, none⟩) Transport.fail Transport.fail
      = none ∧
    search_wikipedia (Transport.ok ⟨404, none⟩)
      (Transport.ok (some ["Neural network".toList])) Transport.fail = none :=
  ⟨c7_provider_failures_absorbed.2.1 ⟨404, none⟩ Transport.fail (by decide),
   c7_provider_failures_absorbed.2.2.1 ⟨404, none⟩ "Neural network".toList []
     (by decide)⟩

/-! ## Claim C10: the math-evaluation gate -/

/-- C10: `conversational_ai.handle_math_request` passes a string to the
dynamic evaluator only when it is non-empty and matches
`^[\d+\-*/().\s]+$` - in particular it contains no alphabetic character - and
a failed evaluation (or an absent expression) produces the help message
instead of propagating. -/
theorem c10_math_eval_gate (evaluator : Text → Except Unit Text)
    (request expr : Text) :
    (math_expr request = some expr →
      expr ≠ [] ∧ expr.all math_char = true ∧ ∀ c ∈ expr, c.isAlpha = false) ∧
    (math_expr request = some expr → evaluator expr = Except.error () →
      handle_math_request evaluator request = math_help) ∧
    (math_expr request = none →
      handle_math_request evaluator request = math_help) := by
  refine ⟨fun h => ?_, fun h he => ?_, fun h => ?_⟩
  · simp only [math_expr] at h
    split at h
    · rename_i hp
      rcases Option.some.inj h with rfl
      refine ⟨hp.1, hp.2, fun c hc => ?_⟩
      exact math_char_not_alpha c (List.all_eq_true.mp hp.2 c hc)
    · exact absurd h (by simp)
  · simp [handle_math_request, h, he]
  · simp [handle_math_request, h]

/-- C10 witness: on the request `what is 2+2?` the gated expression is `2+2`,
it is all class characters, and a failing evaluator still produces the help
message. -/
theorem c10_witness :
    math_expr "what is 2+2?".toList = some "2+2".toList ∧
    "2+2".toList.all math_char = true ∧
    handle_math_request (fun _ => Except.error ()) "what is 2+2?".toList =
      math_help := by
  refine ⟨by decide, ?_, ?_⟩
  · exact ((c10_math_eval_gate (fun _ => Except.error ())
      "what is 2+2?".toList "2+2".toList).1 (by decide)).2.1
  · exact (c10_math_eval_gate (fun _ => Except.error ())
      "what is 2+2?".toList "2+2".toList).2.1 (by decide) rfl

/-! ## Claim C9: keyword monotonicity -/

/-- C9: appending one keyword from the fixed set of
`conversational_ai.py` line 444 to a sentence, when the length contribution is
unchanged (the position class is fixed because `i` and `n` are fixed), never
decreases the sentence score: keyword hits and the digit test are monotone
under appending, and the other contributions are unchanged. -/
theorem c9_keyword_append_monotone (i n : Nat) (s kw : Text)
    (_hkw : kw ∈ keywords_conv)
    (hlen : length_score (s ++ kw) = length_score s) :
    score_sentence i n s ≤ score_sentence i n (s ++ kw) := by
  unfold score_sentence
  have h1 := keyword_score_mono s kw
  have h2 := numeric_score_mono s kw
  rw [hlen]
  omega

/-- C9 witness: appending `important` to a 30-character keyword-free sentence
(length class unchanged: both lengths sit in the `+1` band). -/
theorem c9_witness :
    score_sentence 1 5 (List.replicate 30 'x') ≤
      score_sentence 1 5 (List.replicate 30 'x' ++ "important".toList) :=
  c9_keyword_append_monotone 1 5 (List.replicate 30 'x') "important".toList
    (by decide) (by decide)

/-! ## Claim C4: snippet deduplication -/

/-- C4 counterexample: in `simple_ai_chat.extract_search_snippets`
(lines 446-450) a snippet is dropped only when it is contained in an
already-kept snippet.  When the contained snippet is encountered first, the
containing one is kept as well, so the result holds both of a
substring-related pair: the claim's "regardless of the order" fails. -/
theorem c4_counterexample :
    kept_snippets
      [["machine learning is a powerful modern tool".toList,
        "we know that machine learning is a powerful modern tool these days".toList]] =
      ["machine learning is a powerful modern tool".toList,
       "we know that machine learning is a powerful modern tool these days".toList] ∧
    (py_lower "machine learning is a powerful modern tool".toList <:+:
      py_lower "we know that machine learning is a powerful modern tool these days".toList) ∧
    "machine learning is a powerful modern tool".toList ≠
      "we know that machine learning is a powerful modern tool these days".toList := by
  decide

/-- Invariant of the deduplication fold of lines 446-450: starting from an
accumulator in which no element is contained in an earlier one, the fold
preserves that shape, because a new snippet is appended only when it is
contained in no kept element. -/
theorem dedup_foldl_pairwise (snips : List Text) :
    ∀ acc : List Text,
      List.Pairwise (fun x y => ¬ (py_lower y <:+: py_lower x)) acc →
      List.Pairwise (fun x y => ¬ (py_lower y <:+: py_lower x))
        (snips.foldl (fun uniq s =>
          if uniq.any (fun e => decide (py_lower s <:+: py_lower e)) then uniq
          else uniq ++ [s]) acc) := by
  induction snips with
  | nil =>
    intro acc h
    simpa using h
  | cons s rest ih =>
    intro acc h
    simp only [List.foldl_cons]
    by_cases hc : acc.any (fun e => decide (py_lower s <:+: py_lower e))
    · rw [if_pos hc]
      exact ih acc h
    · rw [if_neg hc]
      apply ih
      rw [List.pairwise_append]
      refine ⟨h, by simp, ?_⟩
      intro a ha b hb
      simp only [List.mem_singleton] at hb
      subst hb
      simp only [List.any_eq_true, decide_eq_true_eq, not_exists, not_and] at hc
      exact hc a ha

/-- C4 (amended): the kept-snippet list is capped at 3 entries and never
contains a snippet that is a case-insensitive substring of an
earlier-kept snippet; a containing snippet that arrives after a contained one
is retained, so both members of a substring pair can appear (see the
counterexample). -/
theorem c4_kept_snippets_shape (per_selector : List (List Text)) :
    (kept_snippets per_selector).length ≤ 3 ∧
    List.Pairwise (fun x y => ¬ (py_lower y <:+: py_lower x))
      (kept_snippets per_selector) := by
  constructor
  · simp only [kept_snippets, List.length_take]
    exact min_le_left _ _
  · unfold kept_snippets dedup_snippets
    exact List.Pairwise.sublist (List.take_sublist _ _)
      (dedup_foldl_pairwise _ [] (by simp))

/-! ## Claim C8: the compression footnote -/

theorem intersperse_append_singleton (sep : Text) :
    ∀ (xs : List Text) (y : Text), xs ≠ [] →
      List.intersperse sep (xs ++ [y]) =
        List.intersperse sep xs ++ [sep, y] := by
  intro xs
  induction xs with
  | nil =>
    intro y h
    exact absurd rfl h
  | cons a t ih =>
    intro y h
    cases t with
    | nil => simp [List.intersperse]
    | cons b t2 =>
      have h2 := ih y (by simp)
      simp only [List.cons_append, List.intersperse_cons_cons] at h2 ⊢
      simp [h2]

theorem intercalate_concat (sep : Text) (xs : List Text) (y : Text)
    (h : xs ≠ []) :
    List.intercalate sep (xs ++ [y]) = List.intercalate sep xs ++ sep ++ y := by
  simp [List.intercalate, intersperse_append_singleton sep xs y h]

theorem summary_parts_ne_nil (ks : List Text) (h : ks ≠ []) :
    summary_parts ks ≠ [] := by
  cases ks with
  | nil => exact absurd rfl h
  | cons a t => simp [summary_parts]

/-- C8 counterexample: `conversational_ai.create_summary` (line 474) returns a
fixed guidance message whenever the selection is empty, even for an original
text of more than 1000 characters, so no compression footnote appears and the
claimed "if and only if" fails in the "if" direction. -/
theorem c8_counterexample :
    1000 < (List.replicate 1001 'a').length ∧
    create_summary [] (List.replicate 1001 'a') =
      "Unable to generate summary - please provide more substantial text.".toList ∧
    ¬ ("This summary condensed".toList <:+:
        create_summary [] (List.replicate 1001 'a')) := by
  decide

/-- C8 (amended): for every non-empty selection, the rendered summary carries
the compression footnote (stating the original and joined-parts character
counts) exactly when the original text is longer than 1000 characters; for
1000 characters or fewer the rendering is the bare newline-joined parts.  With
an empty selection the renderer returns a fixed guidance message without a
footnote (see the counterexample). -/
theorem c8_footnote_iff (key_sentences : List Text) (original_text : Text)
    (h : key_sentences ≠ []) :
    (original_text.length ≤ 1000 →
      create_summary key_sentences original_text =
        List.intercalate ['\n'] (summary_parts key_sentences)) ∧
    (1000 < original_text.length →
      create_summary key_sentences original_text =
        List.intercalate ['\n'] (summary_parts key_sentences) ++
          '\n' :: compression_footnote original_text
            (summary_parts key_sentences)) := by
  constructor
  · intro hle
    simp only [create_summary]
    rw [if_neg h, if_neg (by omega)]
  · intro hgt
    simp only [create_summary]
    rw [if_neg h, if_pos hgt,
      intercalate_concat _ _ _ (summary_parts_ne_nil _ h)]
    simp

/-- C8 witness: the amended characterization applied to a concrete one-sentence
selection and a 1001-character original. -/
theorem c8_witness :
    create_summary ["One key sentence about the 7 results".toList]
        (List.replicate 1001 'b') =
      List.intercalate ['\n']
        (summary_parts ["One key sentence about the 7 results".toList]) ++
        '\n' :: compression_footnote (List.replicate 1001 'b')
          (summary_parts ["One key sentence about the 7 results".toList]) :=
  (c8_footnote_iff ["One key sentence about the 7 results".toList]
    (List.replicate 1001 'b') (by decide)).2 (by decide)

/-! ## Claim C3: short texts are returned verbatim -/

/-- C3 counterexample: a text with a single qualifying sentence is returned by
`conversational_ai.summarize_text` behind the label "This text is already
quite brief. Here it is:" (line 387), not "already concise": any stripped text
shorter than 200 characters takes the brief-label branch before sentence
counting. -/
theorem c3_counterexample :
    (split_into_sentences
      (py_strip "This is a small sample text for testing!".toList)).length < 3 ∧
    ¬ ("already concise".toList <:+:
        summarize_text "This is a small sample text for testing!".toList) ∧
    summarize_text "This is a small sample text for testing!".toList =
      "This text is already quite brief. Here it is:\n\n".toList ++
        "This is a small sample text for testing!".toList := by
  decide

/-- C3 (amended): for every text that segments into fewer than 3 qualifying
sentences, both summarizers return the stripped original verbatim behind a
label, and the label is "already quite brief" / "already brief" when the
stripped text is below the variant's character floor (200 in
`conversational_ai`, 100 in `simple_ai_chat`) and "already concise"
otherwise; the text is never truncated or reordered. -/
theorem c3_short_text_labels (text : Text) :
    ((split_into_sentences (py_strip text)).length < 3 →
      summarize_text text =
        (if (py_strip text).length < 200 then
          "This text is already quite brief. Here it is:\n\n".toList
         else "This text is already concise:\n\n".toList) ++ py_strip text) ∧
    ((split_sentences (py_strip text)).length < 3 →
      create_summary_simple text =
        (if (py_strip text).length < 100 then
          "This text is already brief:\n\n".toList
         else "This text is already concise:\n\n".toList) ++ py_strip text) := by
  constructor
  · intro h
    simp only [summarize_text]
    by_cases hl : (py_strip text).length < 200
    · rw [if_pos hl, if_pos hl]
    · rw [if_neg hl, if_neg hl, if_pos (by omega)]
  · intro h
    simp only [create_summary_simple]
    by_cases hl : (py_strip text).length < 100
    · rw [if_pos hl, if_pos hl]
    · rw [if_neg hl, if_neg hl, if_pos (by omega)]

/-- C3 witness: the amended label equation applied to a concrete one-sentence
text. -/
theorem c3_witness :
    summarize_text "This text stays unchanged!".toList =
      (if (py_strip "This text stays unchanged!".toList).length < 200 then
        "This text is already quite brief. Here it is:\n\n".toList
       else "This text is already concise:\n\n".toList) ++
        py_strip "This text stays unchanged!".toList :=
  (c3_short_text_labels _).1 (by decide)

/-! ## Claim C1: selection order -/

theorem snd_mem_of_mem_enumFrom {α : Type} :
    ∀ (l : List α) (k : Nat) (p : Nat × α), p ∈ l.enumFrom k → p.2 ∈ l := by
  intro l
  induction l with
  | nil =>
    intro k p h
    simp [List.enumFrom] at h
  | cons a t ih =>
    intro k p h
    simp only [List.enumFrom, List.mem_cons] at h
    rcases h with rfl | h
    · simp
    · simp [ih (k + 1) p h]

theorem snd_mem_of_mem_enum {α : Type} {l : List α} {p : Nat × α}
    (h : p ∈ l.enum) : p.2 ∈ l :=
  snd_mem_of_mem_enumFrom l 0 p h

/-- C1 counterexample: on a text whose 4 qualifying sentences give the last
sentence the highest score, `conversational_ai.extract_key_sentences` returns
the kept pair in descending-score order (last sentence first); the kept list
is not an order-preserving subsequence of the segmented sentences, so the
claimed re-sort by `position_index` does not happen. -/
theorem c1_counterexample :
    split_into_sentences
      ("The sky was clear over the town. Rain may arrive soon. " ++
        "Clouds gather. However the important result was that " ++
        "42 students arrived.").toList =
      ["The sky was clear over the town".toList,
       "Rain may arrive soon".toList,
       "Clouds gather".toList,
       "However the important result was that 42 students arrived".toList] ∧
    extract_key_sentences
      ["The sky was clear over the town".toList,
       "Rain may arrive soon".toList,
       "Clouds gather".toList,
       "However the important result was that 42 students arrived".toList] =
      ["However the important result was that 42 students arrived".toList,
       "The sky was clear over the town".toList] ∧
    ¬ List.Sublist
        ["However the important result was that 42 students arrived".toList,
         "The sky was clear over the town".toList]
        ["The sky was clear over the town".toList,
         "Rain may arrive soon".toList,
         "Clouds gather".toList,
         "However the important result was that 42 students arrived".toList] := by
  decide

/-- C1 (amended): both selection steps return a subset of the input sentences
(capped by the keep count, see C6), but in descending-score order as produced
by the stable sort, without the claimed re-sort by position: the kept
sentences can appear out of source order (see the counterexample). -/
theorem c1_selection_subset (sentences : List Text) (x : Text) :
    (x ∈ extract_key_sentences sentences → x ∈ sentences) ∧
    (x ∈ select_key_sentences sentences → x ∈ sentences) := by
  constructor
  · intro hx
    simp only [extract_key_sentences] at hx
    rcases List.mem_map.mp hx with ⟨p, hp, rfl⟩
    have hp2 := mem_sort_by_score_desc (List.mem_of_mem_take hp)
    rcases List.mem_map.mp hp2 with ⟨q, hq, rfl⟩
    exact snd_mem_of_mem_enum hq
  · intro hx
    by_cases hn : sentences.length ≤ 3
    · simpa [select_key_sentences, hn] using hx
    · simp only [select_key_sentences, if_neg hn] at hx
      rcases List.mem_map.mp hx with ⟨p, hp, rfl⟩
      have hp2 := mem_sort_by_score_desc (List.mem_of_mem_take hp)
      rcases List.mem_map.mp hp2 with ⟨q, hq, rfl⟩
      exact snd_mem_of_mem_enum hq

/-- C1 witness: the subset half applied to the concrete 4-sentence input. -/
theorem c1_witness :
    "However the important result was that 42 students arrived".toList ∈
      (["The sky was clear over the town".toList,
        "Rain may arrive soon".toList,
        "Clouds gather".toList,
        "However the important result was that 42 students arrived".toList] :
        List Text) :=
  (c1_selection_subset _ _).1 (by decide)

/-! ## Claim C2: answer compilation is total and non-empty -/

theorem compile_ne_nil (py_str : SourceData → Text) (query : Text)
    (sources : List (Text × SourceData)) (now : Text) :
    compile_comprehensive_response py_str query sources now ≠ [] := by
  cases sources with
  | nil =>
    simp only [compile_comprehensive_response]
    repeat apply append_ne_nil_left
    decide
  | cons main rest =>
    simp only [compile_comprehensive_response]
    repeat apply append_ne_nil_left
    decide

/-- C2: for every query (the empty string included) and every outcome of the
external providers, `intelligent_limbor.get_comprehensive_answer` returns a
non-empty rendered text - the embedding is a total function, so no input
raises - and when every provider returned no result the rendered text is the
terminal message naming the unanswered query. -/
theorem c2_answer_compilation_total (py_str : SourceData → Text) (query : Text)
    (wiki : Option (List (Text × Text))) (web : List (Text × SourceData))
    (now : Text) :
    get_comprehensive_answer py_str query wiki web now ≠ [] ∧
    (get_built_in_knowledge query = none → wiki = none → web = [] →
      query <:+: get_comprehensive_answer py_str query wiki web now) := by
  constructor
  · unfold get_comprehensive_answer
    exact compile_ne_nil _ _ _ _
  · intro h1 h2 h3
    subst h2
    subst h3
    simp only [get_comprehensive_answer, h1]
    simp only [List.append_nil, List.nil_append]
    exact ⟨"❌ I couldn\x27t find comprehensive information about \x27".toList,
      "\x27. Try rephrasing your question or being more specific.".toList, rfl⟩

/-- C2 witness: a query no provider answers still yields a message containing
the query. -/
theorem c2_witness :
    "zzz".toList <:+:
      get_comprehensive_answer (fun _ => []) "zzz".toList none [] [] :=
  (c2_answer_compilation_total (fun _ => []) "zzz".toList none [] []).2
    (by decide) rfl rfl
